import Mathlib

/-!
Verification development for the Figma-plugin prompt generator
(`src/scr/code.ts`).  The TypeScript source is shallowly embedded:
JavaScript numbers are modelled as rationals (every value in scope has a
terminating binary/decimal meaning and no overflow is involved), strings as
Lean `String`, nodes as an explicit tree, and the `figma.mixed` sentinel /
absent attributes as an explicit three-state type.
-/

namespace PromptGen

/-- Three-state model of a Figma node attribute: missing from the object,
present but equal to the `figma.mixed` sentinel, or present with a value. -/
inductive FProp (α : Type) where
  | absent : FProp α
  | mixedSentinel : FProp α
  | val : α → FProp α
deriving DecidableEq, Repr

/-- JavaScript `x || d` for a possibly-`undefined` number `x`:
`undefined` and `0` are falsy, every other (rational) value is truthy. -/
def jsOrNum (x : Option ℚ) (d : ℚ) : ℚ :=
  match x with
  | none => d
  | some v => if v = 0 then d else v

/-- JavaScript `x || d` for a possibly-`undefined` string `x`:
`undefined` and `""` are falsy. -/
def jsOrStr (x : Option String) (d : String) : String :=
  match x with
  | none => d
  | some s => if s = "" then d else s

/-- JavaScript `Math.round`: round half toward positive infinity. -/
def jsRound (q : ℚ) : ℤ := ⌊q + 1/2⌋

/-- The two fractional digits of `toFixed(2)`: tens digit then ones digit of
the hundredths count `m` (`m < 100`). -/
def pad2Digits (m : ℕ) : List Char := [Nat.digitChar (m / 10), Nat.digitChar (m % 10)]

/-- Number of hundredths after rounding a nonnegative rational to two decimal
places, with ties picking the larger candidate — the rounding ECMAScript
`Number.prototype.toFixed(2)` prescribes ("if there are two such n, pick the
larger n"). -/
def hundredths (q : ℚ) : ℕ := (⌊q * 100 + 1/2⌋).toNat

/-- Decimal string with exactly two fractional digits for a hundredths
count `n`: integer part, then `.`, then two digits. -/
def fixed2 (n : ℕ) : String := Nat.repr (n / 100) ++ String.mk ('.' :: pad2Digits (n % 100))

/-- `nearestOpacity` from the source: `Math.round(nodeOpacity * 100)`. -/
def nearestOpacity (nodeOpacity : ℚ) : ℤ := jsRound (nodeOpacity * 100)

/-- Fractional digits of an ECMAScript number rendering, for values with a
terminating decimal expansion of at most `fuel` digits — which covers all
values this program interpolates (JavaScript doubles are binary fractions
and print at most 17 significant digits). -/
def fracDigitChars : ℕ → ℚ → List Char
  | 0, _ => []
  | fuel + 1, q =>
    if q = 0 then []
    else
      Nat.digitChar (⌊q * 10⌋).toNat :: fracDigitChars fuel (q * 10 - ⌊q * 10⌋)

/-- ECMAScript `ToString` of an integer with more than 21 decimal digits:
exponential notation `d.dddde+K` with trailing zeros of the significand
dropped and `K` one less than the digit count (`Number::toString`, radix
10, case `n > 21`). -/
def expNotation (m : ℕ) : String :=
  let ds := (Nat.repr m).data
  match (ds.reverse.dropWhile fun c => c = '0').reverse with
  | [] => "0"
  | [d] => String.mk [d] ++ "e+" ++ Nat.repr (ds.length - 1)
  | d :: rest => String.mk [d] ++ "." ++ String.mk rest ++ "e+" ++ Nat.repr (ds.length - 1)

/-- ECMAScript `ToString` of a nonnegative integer: plain decimal digits up
to 21 of them, exponential notation beyond. -/
def jsIntToString (m : ℕ) : String :=
  if m < 10 ^ 21 then Nat.repr m else expNotation m

/-- Nonnegative-case helper for `jsNumToString`.  The fractional branch
keeps plain notation (a fractional double is always below `2 ^ 53 < 10 ^ 21`,
so exponential notation can only arise on the integer branch). -/
def jsNumToStringNN (q : ℚ) : String :=
  if q - ⌊q⌋ = 0 then jsIntToString (⌊q⌋).toNat
  else Nat.repr (⌊q⌋).toNat ++ String.mk ('.' :: fracDigitChars 20 (q - ⌊q⌋))

/-- ECMAScript `ToString` on a (finite, terminating-decimal) number. -/
def jsNumToString (q : ℚ) : String :=
  if q < 0 then "-" ++ jsNumToStringNN (-q) else jsNumToStringNN q

/-- `toFixed(2)` after the sign has been split off (`x ≥ 0`): ECMAScript
prescribes the plain `ToString` rendering when `x ≥ 10 ^ 21` and the
two-decimal fixed rendering of the rounded hundredths below that. -/
def toFixed2Abs (q : ℚ) : String :=
  if 10 ^ 21 ≤ q then jsNumToStringNN q else fixed2 (hundredths q)

/-- `num.toFixed(2)`: sign first, then `toFixed2Abs` of the absolute
value. -/
def toFixed2 (q : ℚ) : String :=
  if q < 0 then "-" ++ toFixed2Abs (-q) else toFixed2Abs q

/-- `.replace(/\.00$/, "")`: remove the final three characters exactly when
they are `.00`. -/
def stripDot00 (s : String) : String :=
  if s.data.reverse.take 3 = ['0', '0', '.'] then
    String.mk ((s.data.reverse.drop 3).reverse)
  else s

/-- `sliceNum` from the source:
`num.toFixed(2).replace(/\.00$/, "")`. -/
def sliceNum (num : ℚ) : String := stripDot00 (toFixed2 num)

/-- Normalised 0–1 RGB triple, as in the Figma API. -/
structure RGB where
  r : ℚ
  g : ℚ
  b : ℚ
deriving DecidableEq, Repr

/-- `rgbaFromRGB` from the source:
`rgba(${Math.round(color.r * 255)}, ${Math.round(color.g * 255)}, ${Math.round(color.b * 255)}, ${opacity})`. -/
def rgbaFromRGB (color : RGB) (opacity : ℚ := 1) : String :=
  "rgba(" ++ (jsRound (color.r * 255)).repr ++ ", " ++ (jsRound (color.g * 255)).repr ++
    ", " ++ (jsRound (color.b * 255)).repr ++ ", " ++ jsNumToString opacity ++ ")"

/-- Split a character list at every newline; the result always has one more
entry than the number of `'\n'` characters.  Models line structure for the
`gm`-flagged regex in `indentString`. -/
def splitLines : List Char → List (List Char)
  | [] => [[]]
  | c :: rest =>
    if c = '\n' then [] :: splitLines rest
    else
      match splitLines rest with
      | [] => [[c]]
      | l :: ls => (c :: l) :: ls

/-- Join lines back with `'\n'`. -/
def joinLines : List (List Char) → List Char
  | [] => []
  | [l] => l
  | l :: ls => l ++ '\n' :: joinLines ls

/-- A line is blank when it has no non-whitespace character — that is when
the lookahead `(?!\s*$)` of the source regex fails. -/
def lineIsBlank (l : List Char) : Bool := !l.any (fun c => !c.isWhitespace)

/-- `indentString` from the source:
`str.replace(/^(?!\s*$)/gm, " ".repeat(indentLevel))` — prefix every
non-blank line with `indentLevel` spaces and leave blank lines unchanged. -/
def indentString (str : String) (indentLevel : ℕ := 2) : String :=
  String.mk (joinLines ((splitLines str.data).map fun l =>
    if lineIsBlank l then l else List.replicate indentLevel ' ' ++ l))

/-- JavaScript `Array.prototype.join(sep)`. -/
def joinStrings (sep : String) : List String → String
  | [] => ""
  | [s] => s
  | s :: rest => s ++ sep ++ joinStrings sep rest

/-- A paint entry of a `fills` / `strokes` list.  The source only ever
inspects `paint.type === "SOLID"` and then reads `paint.color` and
`paint.opacity` (the latter optional in the Figma API), so a solid paint
carries those and any other paint only its `type` string. -/
inductive Paint where
  | solid : RGB → Option ℚ → Paint
  | nonSolid : String → Paint
deriving DecidableEq, Repr

/-- An entry of an `effects` list, with the fields the source reads:
`type`, `visible`, `offset.x`, `offset.y`, `radius`, `color`, `opacity`. -/
structure Effect where
  etype : String
  visible : Bool
  offsetX : ℚ
  offsetY : ℚ
  blurRadius : ℚ
  color : RGB
  opacity : ℚ
deriving DecidableEq, Repr

/-- `FontName` from the Figma API. -/
structure FontName where
  family : String
  style : String
deriving DecidableEq, Repr

/-- A `lineHeight` / `letterSpacing` value: either the API object
`{ value, unit }` (for `lineHeight` the unit may be `"AUTO"`, in which case
the source never reads the value) or a plain number (the source's
`typeof x === 'number'` branch). -/
inductive NumWithUnit where
  | obj : ℚ → String → NumWithUnit
  | num : ℚ → NumWithUnit
deriving DecidableEq, Repr

/-- The scalar attributes of a scene node — every field of the source's
`SceneNode` union that `code.ts` reads, with `Option` marking attributes a
node object may lack and `FProp` marking attributes that may also carry the
`figma.mixed` sentinel.  `ntype` is the `node.type` tag string
(`"RECTANGLE"`, `"GROUP"`, ...). -/
structure NodeProps where
  ntype : String
  name : String
  visible : Bool
  x : ℚ
  y : ℚ
  width : ℚ
  height : ℚ
  opacity : Option ℚ
  fills : Option (List Paint)
  strokes : Option (List Paint)
  strokeWeight : FProp ℚ
  cornerRadius : FProp ℚ
  effects : Option (List Effect)
  paddingTop : Option ℚ
  paddingRight : Option ℚ
  paddingBottom : Option ℚ
  paddingLeft : Option ℚ
  layoutMode : String
  primaryAxisAlignItems : String
  counterAxisAlignItems : String
  characters : String
  fontName : FProp FontName
  fontSize : FProp ℚ
  lineHeight : FProp NumWithUnit
  letterSpacing : FProp NumWithUnit
  textAlignHorizontal : Option String
deriving DecidableEq, Repr

/-- A scene node: its scalar attributes and its ordered children. -/
inductive SceneNode where
  | mk : NodeProps → List SceneNode → SceneNode

/-- The scalar attributes of a node. -/
def SceneNode.props : SceneNode → NodeProps
  | .mk p _ => p

/-- The ordered `children` list of a node (empty for non-container kinds). -/
def SceneNode.children : SceneNode → List SceneNode
  | .mk _ c => c

def SceneNode.ntype (n : SceneNode) : String := n.props.ntype
def SceneNode.name (n : SceneNode) : String := n.props.name
def SceneNode.visible (n : SceneNode) : Bool := n.props.visible
def SceneNode.x (n : SceneNode) : ℚ := n.props.x
def SceneNode.y (n : SceneNode) : ℚ := n.props.y
def SceneNode.width (n : SceneNode) : ℚ := n.props.width
def SceneNode.height (n : SceneNode) : ℚ := n.props.height
def SceneNode.opacity (n : SceneNode) : Option ℚ := n.props.opacity
def SceneNode.fills (n : SceneNode) : Option (List Paint) := n.props.fills
def SceneNode.strokes (n : SceneNode) : Option (List Paint) := n.props.strokes
def SceneNode.strokeWeight (n : SceneNode) : FProp ℚ := n.props.strokeWeight
def SceneNode.cornerRadius (n : SceneNode) : FProp ℚ := n.props.cornerRadius
def SceneNode.effects (n : SceneNode) : Option (List Effect) := n.props.effects
def SceneNode.paddingTop (n : SceneNode) : Option ℚ := n.props.paddingTop
def SceneNode.paddingRight (n : SceneNode) : Option ℚ := n.props.paddingRight
def SceneNode.paddingBottom (n : SceneNode) : Option ℚ := n.props.paddingBottom
def SceneNode.paddingLeft (n : SceneNode) : Option ℚ := n.props.paddingLeft
def SceneNode.layoutMode (n : SceneNode) : String := n.props.layoutMode
def SceneNode.primaryAxisAlignItems (n : SceneNode) : String := n.props.primaryAxisAlignItems
def SceneNode.counterAxisAlignItems (n : SceneNode) : String := n.props.counterAxisAlignItems
def SceneNode.characters (n : SceneNode) : String := n.props.characters
def SceneNode.fontName (n : SceneNode) : FProp FontName := n.props.fontName
def SceneNode.fontSize (n : SceneNode) : FProp ℚ := n.props.fontSize
def SceneNode.lineHeight (n : SceneNode) : FProp NumWithUnit := n.props.lineHeight
def SceneNode.letterSpacing (n : SceneNode) : FProp NumWithUnit := n.props.letterSpacing
def SceneNode.textAlignHorizontal (n : SceneNode) : Option String := n.props.textAlignHorizontal

/-- `getBorderWidth` from the source: stroke weight present and not
`figma.mixed`, else `"0px"`. -/
def getBorderWidth (node : SceneNode) : String :=
  match node.strokeWeight with
  | .val w => sliceNum w ++ "px"
  | _ => "0px"

/-- `getBorderColor` from the source: `strokes` present, an array, nonempty
and with a `"SOLID"` first entry — then `rgbaFromRGB(strokes[0].color,
strokes[0].opacity || 1)` — else `"transparent"`. -/
def getBorderColor (node : SceneNode) : String :=
  match node.strokes with
  | some (Paint.solid color opacity :: _) => rgbaFromRGB color (jsOrNum opacity 1)
  | _ => "transparent"

/-- `getBorderRadius` from the source: corner radius present, not
`figma.mixed` and a number, else `"0px"`. -/
def getBorderRadius (node : SceneNode) : String :=
  match node.cornerRadius with
  | .val r => sliceNum r ++ "px"
  | _ => "0px"

/-- `getShadow` from the source: visible drop-shadow entries of the
`effects` array, each formatted as offset-x, offset-y, blur radius and
rgba colour; `[]` when `effects` is not an array. -/
def getShadow (node : SceneNode) : List String :=
  match node.effects with
  | some effects =>
    (effects.filter fun e => e.etype == "DROP_SHADOW" && e.visible).map fun e =>
      sliceNum e.offsetX ++ "px " ++ sliceNum e.offsetY ++ "px " ++
        sliceNum e.blurRadius ++ "px " ++ rgbaFromRGB e.color e.opacity
  | none => []

/-- `getPadding` from the source: when `paddingLeft` exists on the node,
the four `node.paddingX || 0` values as `top right bottom left`,
else `"0px"`. -/
def getPadding (node : SceneNode) : String :=
  if node.paddingLeft.isSome then
    sliceNum (jsOrNum node.paddingTop 0) ++ "px " ++
      sliceNum (jsOrNum node.paddingRight 0) ++ "px " ++
      sliceNum (jsOrNum node.paddingBottom 0) ++ "px " ++
      sliceNum (jsOrNum node.paddingLeft 0) ++ "px"
  else "0px"

/-- `getBackgroundColor` from the source: `fills` present, an array,
nonempty and with a `"SOLID"` first entry — then
`rgbaFromRGB(fills[0].color, fills[0].opacity || 1)` — else
`"transparent"`. -/
def getBackgroundColor (node : SceneNode) : String :=
  match node.fills with
  | some (Paint.solid color opacity :: _) => rgbaFromRGB color (jsOrNum opacity 1)
  | _ => "transparent"

/-- The `componentName` constant each generator computes:
`"name" in node && node.name ? \x60 (Component Name: ...)\x60 : ""`
(`"name" in node` is always true for a scene node; a nonempty name is
truthy). -/
def componentName (node : SceneNode) : String :=
  if node.name = "" then "" else " (Component Name: " ++ node.name ++ ")"

/-- The set of `node.type` strings the source's `switch` statements list
(in both `convertIntoNodes` and `WidgetGenerator`). -/
def isSupportedType (t : String) : Bool :=
  t == "RECTANGLE" || t == "ELLIPSE" || t == "LINE" || t == "TEXT" ||
    t == "VECTOR" || t == "GROUP" || t == "FRAME" || t == "INSTANCE" ||
    t == "COMPONENT" || t == "COMPONENT_SET" || t == "SECTION"

/-- `convertIntoNodes` from the source: map every node of a listed kind to
itself and every other node to `null`, then `filter(notEmpty)`.  The
`parent` parameter is accepted and ignored, as in the source. -/
def convertIntoNodes (sceneNode : List SceneNode) (_parent : Option SceneNode := none) :
    List SceneNode :=
  (sceneNode.map fun node =>
    if isSupportedType node.ntype then some node else none).reduceOption

/-- `node.characters.replace(/\n/g, '\\n')` from `generateTextPrompt`:
every newline becomes the two characters backslash, `n`. -/
def replaceNewlines (s : String) : String :=
  String.mk (s.data.flatMap fun c => if c = '\n' then ['\\', 'n'] else [c])

/-- `String.prototype.toLowerCase()`, character by character (the tag
strings involved are plain ASCII). -/
def toLowerStr (s : String) : String := String.mk (s.data.map Char.toLower)

/-- `generateContainerPrompt` from the source (rectangles and ellipses). -/
def generateContainerPrompt (node : SceneNode) : String :=
  "- A " ++ toLowerStr node.ntype ++ componentName node ++ " with dimensions " ++
    sliceNum node.width ++ "x" ++ sliceNum node.height ++ "px, positioned at (" ++
    sliceNum node.x ++ "," ++ sliceNum node.y ++ ")px, with background color " ++
    getBackgroundColor node ++ ", border width " ++ getBorderWidth node ++ " color " ++
    getBorderColor node ++ ", opacity at " ++
    (nearestOpacity (jsOrNum node.opacity 1)).repr ++ "%, border radius " ++
    getBorderRadius node ++ ", and shadow " ++ joinStrings ", " (getShadow node) ++ "."

/-- `generateTextPrompt` from the source. -/
def generateTextPrompt (node : SceneNode) : String :=
  let textContent := replaceNewlines node.characters
  let fontName : FontName :=
    match node.fontName with
    | .val f => f
    | _ => { family := "Unknown", style := "Unknown" }
  let fontSize : Option ℚ :=
    match node.fontSize with
    | .val v => some v
    | .mixedSentinel => some 0
    | .absent => none
  let lineHeight : String :=
    match node.lineHeight with
    | .val (.obj value u) => if u == "AUTO" then "auto" else jsNumToString value ++ u
    | .val (.num v) => sliceNum v
    | _ => "auto"
  let letterSpacing : String :=
    match node.letterSpacing with
    | .val (.obj value u) => jsNumToString value ++ u
    | .val (.num v) => sliceNum v
    | _ => "normal"
  "- Text node" ++ componentName node ++ " with content: \"" ++ textContent ++
    "\", font size " ++ sliceNum (match fontSize with | some v => v | none => 0) ++
    "px, font family " ++ fontName.family ++ ", font style " ++ fontName.style ++
    ", alignment " ++ jsOrStr node.textAlignHorizontal "LEFT" ++ ", color " ++
    getBackgroundColor node ++ ", opacity at " ++
    (nearestOpacity (jsOrNum node.opacity 1)).repr ++ "%, line height " ++
    lineHeight ++ ", and letter spacing " ++ letterSpacing ++ "."

/-- `generateLinePrompt` from the source.  `strokeWeight` is
`node.strokeWeight !== figma.mixed ? node.strokeWeight : 0` (so `mixed ↦ 0`
and an absent weight stays `undefined`), then the interpolation applies
`typeof strokeWeight === 'number' ? strokeWeight : 0`; `opacity` is
`node.opacity !== undefined ? node.opacity : 1` (a zero opacity stays 0
here). -/
def generateLinePrompt (node : SceneNode) : String :=
  let strokeWeight : Option ℚ :=
    match node.strokeWeight with
    | .val w => some w
    | .mixedSentinel => some 0
    | .absent => none
  let opacity : ℚ := match node.opacity with | some v => v | none => 1
  "- A line" ++ componentName node ++ " from (" ++ sliceNum node.x ++ "," ++
    sliceNum node.y ++ ")px to (" ++ sliceNum (node.x + node.width) ++ "," ++
    sliceNum (node.y + node.height) ++ ")px, with stroke width " ++
    sliceNum (match strokeWeight with | some w => w | none => 0) ++ "px, color " ++
    getBorderColor node ++ ", and opacity at " ++ (nearestOpacity opacity).repr ++ "%."

/-- `generateVectorPrompt` from the source. -/
def generateVectorPrompt (node : SceneNode) : String :=
  "- A vector node" ++ componentName node ++ " with dimensions " ++
    sliceNum node.width ++ "x" ++ sliceNum node.height ++ "px, positioned at (" ++
    sliceNum node.x ++ "," ++ sliceNum node.y ++ ")px."

/-- `sizeOf` of a member of a list is at least two smaller than `sizeOf` of
the list (cons adds the head's size plus one, nil weighs one). -/
theorem sizeOf_mem_lt_list {xs : List SceneNode} {c : SceneNode} (h : c ∈ xs) :
    sizeOf c + 2 ≤ sizeOf xs := by
  induction xs with
  | nil => cases h
  | cons a l ih =>
    rcases List.mem_cons.mp h with rfl | h2
    · have hl : 1 ≤ sizeOf l := by
        cases l with
        | nil => simp
        | cons b t => simp only [List.cons.sizeOf_spec]; omega
      simp only [List.cons.sizeOf_spec]
      omega
    · have := ih h2
      simp only [List.cons.sizeOf_spec]
      omega

/-- A singleton of a child weighs less than the parent node. -/
theorem sizeOf_singleton_lt_parent {n : SceneNode} {c : SceneNode}
    (h : c ∈ n.children) : sizeOf [c] < sizeOf n := by
  cases n with
  | mk p cs =>
    simp only [SceneNode.children] at h
    have := sizeOf_mem_lt_list h
    simp only [SceneNode.mk.sizeOf_spec, List.cons.sizeOf_spec, List.nil.sizeOf_spec]
    have hp : 1 ≤ sizeOf p := by cases p; simp; omega
    omega

mutual

/-- `WidgetGenerator` from the source: filter the list to visible nodes,
render each by kind, join with newlines.  The per-node `switch` callback is
the mutual function `renderOne`; `attach` only carries the membership proof
used for termination. -/
def WidgetGenerator (sceneNode : List SceneNode) : String :=
  joinStrings "\n" ((sceneNode.filter fun node => node.visible).attach.map fun x =>
    renderOne x.1)
termination_by (sizeOf sceneNode, 0)
decreasing_by
  have h1 : x.1 ∈ sceneNode := List.mem_of_mem_filter x.2
  have h2 := sizeOf_mem_lt_list h1
  exact Prod.Lex.left _ _ (by omega)

/-- The body of `WidgetGenerator`'s `switch (node.type)`, written as the
equivalent chain of tag-string comparisons. -/
def renderOne (node : SceneNode) : String :=
  if node.ntype == "RECTANGLE" || node.ntype == "ELLIPSE" then
    generateContainerPrompt node
  else if node.ntype == "GROUP" then generateGroupPrompt node
  else if node.ntype == "FRAME" || node.ntype == "COMPONENT" ||
      node.ntype == "INSTANCE" || node.ntype == "COMPONENT_SET" then
    generateFramePrompt node
  else if node.ntype == "TEXT" then generateTextPrompt node
  else if node.ntype == "LINE" then generateLinePrompt node
  else if node.ntype == "VECTOR" then generateVectorPrompt node
  else if node.ntype == "SECTION" then generateSectionPrompt node
  else "Unknown node type: " ++ node.ntype
termination_by (sizeOf node, 1)
decreasing_by
  all_goals exact Prod.Lex.right _ (by omega)

/-- `generateGroupPrompt` from the source. -/
def generateGroupPrompt (node : SceneNode) : String :=
  "- A group" ++ componentName node ++ " with " ++ Nat.repr node.children.length ++
    " children, dimensions " ++ sliceNum node.width ++ "x" ++ sliceNum node.height ++
    "px, positioned at (" ++ sliceNum node.x ++ "," ++ sliceNum node.y ++
    ")px, with properties:\n" ++
    indentString (joinStrings "\n" (node.children.attach.map fun c =>
      WidgetGenerator [c.1]))
termination_by (sizeOf node, 0)
decreasing_by
  exact Prod.Lex.left _ _ (sizeOf_singleton_lt_parent c.2)

/-- `generateFramePrompt` from the source (frames, components, component
sets and instances). -/
def generateFramePrompt (node : SceneNode) : String :=
  "- A " ++ toLowerStr node.ntype ++ " frame" ++ componentName node ++ " with " ++
    Nat.repr node.children.length ++ " children, dimensions " ++
    sliceNum node.width ++ "x" ++ sliceNum node.height ++ "px, positioned at (" ++
    sliceNum node.x ++ "," ++ sliceNum node.y ++ ")px, " ++
    (if node.layoutMode ≠ "NONE" then
      "Layout mode: " ++ node.layoutMode ++ ", Alignment: " ++
        node.primaryAxisAlignItems ++ "/" ++ node.counterAxisAlignItems ++
        ", Padding: " ++ getPadding node
    else "Layout mode: NONE") ++ ":\n" ++
    indentString (joinStrings "\n" (node.children.attach.map fun c =>
      WidgetGenerator [c.1]))
termination_by (sizeOf node, 0)
decreasing_by
  exact Prod.Lex.left _ _ (sizeOf_singleton_lt_parent c.2)

/-- `generateSectionPrompt` from the source. -/
def generateSectionPrompt (node : SceneNode) : String :=
  "- A section node" ++ componentName node ++ " with " ++
    Nat.repr node.children.length ++ " children, dimensions " ++
    sliceNum node.width ++ "x" ++ sliceNum node.height ++ "px, positioned at (" ++
    sliceNum node.x ++ "," ++ sliceNum node.y ++ ")px:\n" ++
    indentString (joinStrings "\n" (node.children.attach.map fun c =>
      WidgetGenerator [c.1]))
termination_by (sizeOf node, 0)
decreasing_by
  exact Prod.Lex.left _ _ (sizeOf_singleton_lt_parent c.2)

end

/-- `Main` from the source. -/
def Main (sceneNode : List SceneNode) : String := WidgetGenerator sceneNode

/-- The message the UI posts to the plugin:
`{ type, framework, database, description }`. -/
structure UIMessage where
  mtype : String
  framework : String
  database : String
  description : String

/-- The part of the handler's `output` accumulated before the
`### Layout:` marker: the title line, the Overview section, and — exactly
when `msg.database && msg.database !== 'null'` — the database line. -/
def outputHeader (msg : UIMessage) : String :=
  "Create a reusable and performant " ++ msg.framework ++
    " Component with the following specifications, add it to the existing project or create a new " ++
    msg.framework ++ " project:\n\n" ++
  "### Overview:\n" ++
  "- **Description**: " ++ msg.description ++ "\n" ++
  "- **Type**: A " ++ msg.framework ++ " that includes all underlying components and instances.\n" ++
  "- **Framework**: " ++ msg.framework ++ " (use appropriate syntax for type safety) Typescript if the framework supports it\n" ++
  "- **Accessibility**: Ensure all components are accessible by using appropriate ARIA attributes.\n" ++
  "- **Performance**: Optimize the code for performance, following the selected framework's best practices.\n" ++
  "- **Reusability**: All components and styles must be reusable.\n" ++
  "- **Global CSS**: All CSS must be stored in a single global CSS file or theme file.\n" ++
  (if msg.database ≠ "" ∧ msg.database ≠ "null" then
    "- **Database**: Privide the  " ++ msg.database ++ " schema to create the database table. for any input fields.\n\n"
  else "")

/-- The part of the handler's `output` accumulated after the `### Layout:`
marker: the layout sentence, the rendered node tree, and the Implementation
and Usage sections. -/
def outputFooter (msg : UIMessage) (convertedSelection : List SceneNode) : String :=
  "- This layout is created based on the selected nodes from Figma.\n" ++
  Main convertedSelection ++
  "### Implementation:\n" ++
  "- Create all underlying components with their different variations.\n" ++
  "- Use " ++ msg.framework ++ " hooks like `useState` for managing internal state if necessary, particularly for managing hover effects if not using CSS hover.\n" ++
  "- Ensure the component uses flexbox for aligning icon and text horizontally (if applicable).\n" ++
  "- Use `role` attributes where necessary to define the semantic role of the elements.\n" ++
  "- Use `aria-label` to provide descriptive labels for interactive elements.\n" ++
  "- Use `aria-expanded` for elements that expand or collapse content.\n" ++
  "- Follow the selected framework's coding best practices and standards.\n" ++
  "- All styles must be defined in a global CSS file or theme file and applied using CSS classes.\n" ++
  "- Swap the text icon with a randomly selected icon.\n" ++
  "- Add validation for the input fields.\n\n" ++
  "### Usage:\n" ++
  "- Include the component in your application.\n" ++
  "- Use the component as needed in your application.\n" ++
  "- Ensure the component is responsive and works on all screen sizes.\n" ++
  "- Test the component on different browsers and devices to ensure compatibility.\n" ++
  "- Ensure the component is accessible and meets all WCAG standards.\n" ++
  "- Ensure the component is performant and does not impact the application's performance.\n" ++
  "- Ensure the component is reusable and can be used in different parts of the application.\n\n"

/-- The `output` string the `'generate'` branch of `figma.ui.onmessage`
assembles for a non-empty selection, line for line in source order (the
`debugger;` statement is a no-op; `pageName` is read but never used). -/
def generateOutput (msg : UIMessage) (convertedSelection : List SceneNode) : String :=
  outputHeader msg ++ ("### Layout:\n" ++ outputFooter msg convertedSelection)

/-- The `figma.ui.onmessage` handler, as the prompt string it posts back:
outside a `'generate'` message nothing is posted (`none`); with an absent or
empty selection (`!currentpage || currentpage.length === 0`) the fixed
notice is posted; otherwise the full output built over
`convertIntoNodes(currentpage, null)`. -/
def onMessage (msg : UIMessage) (selection : Option (List SceneNode)) : Option String :=
  if msg.mtype = "generate" then
    match selection with
    | none => some "No nodes selected."
    | some currentpage =>
      if currentpage.length = 0 then some "No nodes selected."
      else some (generateOutput msg (convertIntoNodes currentpage none))
  else none

/-! ### Bridge lemmas: the renderer without the termination bookkeeping -/

theorem map_attach_widget (l : List SceneNode) :
    (l.attach.map fun c => WidgetGenerator [c.1]) = l.map fun c => WidgetGenerator [c] :=
  List.attach_map_val l fun c => WidgetGenerator [c]

theorem WidgetGenerator_eq (ns : List SceneNode) :
    WidgetGenerator ns =
      joinStrings "\n" ((ns.filter fun node => node.visible).map renderOne) := by
  rw [WidgetGenerator, List.attach_map_val]

theorem generateGroupPrompt_eq (node : SceneNode) :
    generateGroupPrompt node =
      "- A group" ++ componentName node ++ " with " ++ Nat.repr node.children.length ++
        " children, dimensions " ++ sliceNum node.width ++ "x" ++ sliceNum node.height ++
        "px, positioned at (" ++ sliceNum node.x ++ "," ++ sliceNum node.y ++
        ")px, with properties:\n" ++
        indentString (joinStrings "\n" (node.children.map fun c => WidgetGenerator [c])) := by
  rw [generateGroupPrompt, map_attach_widget]

theorem generateFramePrompt_eq (node : SceneNode) :
    generateFramePrompt node =
      "- A " ++ toLowerStr node.ntype ++ " frame" ++ componentName node ++ " with " ++
        Nat.repr node.children.length ++ " children, dimensions " ++
        sliceNum node.width ++ "x" ++ sliceNum node.height ++ "px, positioned at (" ++
        sliceNum node.x ++ "," ++ sliceNum node.y ++ ")px, " ++
        (if node.layoutMode ≠ "NONE" then
          "Layout mode: " ++ node.layoutMode ++ ", Alignment: " ++
            node.primaryAxisAlignItems ++ "/" ++ node.counterAxisAlignItems ++
            ", Padding: " ++ getPadding node
        else "Layout mode: NONE") ++ ":\n" ++
        indentString (joinStrings "\n" (node.children.map fun c => WidgetGenerator [c])) := by
  rw [generateFramePrompt, map_attach_widget]

theorem generateSectionPrompt_eq (node : SceneNode) :
    generateSectionPrompt node =
      "- A section node" ++ componentName node ++ " with " ++
        Nat.repr node.children.length ++ " children, dimensions " ++
        sliceNum node.width ++ "x" ++ sliceNum node.height ++ "px, positioned at (" ++
        sliceNum node.x ++ "," ++ sliceNum node.y ++ ")px:\n" ++
        indentString (joinStrings "\n" (node.children.map fun c => WidgetGenerator [c])) := by
  rw [generateSectionPrompt, map_attach_widget]

theorem WidgetGenerator_nil : WidgetGenerator [] = "" := by
  rw [WidgetGenerator_eq]; rfl

theorem WidgetGenerator_singleton (n : SceneNode) :
    WidgetGenerator [n] = if n.visible then renderOne n else "" := by
  rw [WidgetGenerator_eq]
  cases hv : n.visible <;> simp [hv, List.filter, joinStrings]

theorem renderOne_container {n : SceneNode}
    (h : n.ntype = "RECTANGLE" ∨ n.ntype = "ELLIPSE") :
    renderOne n = generateContainerPrompt n := by
  rcases h with h | h <;> rw [renderOne] <;> simp [h]

theorem renderOne_group {n : SceneNode} (h : n.ntype = "GROUP") :
    renderOne n = generateGroupPrompt n := by
  rw [renderOne]; simp [h]

theorem renderOne_frame {n : SceneNode}
    (h : n.ntype = "FRAME" ∨ n.ntype = "COMPONENT" ∨ n.ntype = "INSTANCE" ∨
      n.ntype = "COMPONENT_SET") :
    renderOne n = generateFramePrompt n := by
  rcases h with h | h | h | h <;> rw [renderOne] <;> simp [h]

theorem renderOne_text {n : SceneNode} (h : n.ntype = "TEXT") :
    renderOne n = generateTextPrompt n := by
  rw [renderOne]; simp [h]

theorem renderOne_line {n : SceneNode} (h : n.ntype = "LINE") :
    renderOne n = generateLinePrompt n := by
  rw [renderOne]; simp [h]

theorem renderOne_vector {n : SceneNode} (h : n.ntype = "VECTOR") :
    renderOne n = generateVectorPrompt n := by
  rw [renderOne]; simp [h]

theorem renderOne_section {n : SceneNode} (h : n.ntype = "SECTION") :
    renderOne n = generateSectionPrompt n := by
  rw [renderOne]; simp [h]

theorem renderOne_unknown {n : SceneNode} (h : isSupportedType n.ntype = false) :
    renderOne n = "Unknown node type: " ++ n.ntype := by
  rw [renderOne]
  simp only [isSupportedType, Bool.or_eq_false_iff] at h
  obtain ⟨⟨⟨⟨⟨⟨⟨⟨⟨⟨h1, h2⟩, h3⟩, h4⟩, h5⟩, h6⟩, h7⟩, h8⟩, h9⟩, h10⟩, h11⟩ := h
  simp [h1, h2, h3, h4, h5, h6, h7, h8, h9, h10, h11]

/-! ### `sliceNum`: what the `.replace(/\.00$/, "")` step does and does not strip -/

theorem digitChar_eq_zero_iff {x : ℕ} (h : x < 10) : Nat.digitChar x = '0' ↔ x = 0 := by
  interval_cases x <;> simp [Nat.digitChar]

theorem strMk_data (s : String) : String.mk s.data = s := rfl

theorem fixed2_data_reverse (n : ℕ) :
    (fixed2 n).data.reverse =
      Nat.digitChar (n % 100 % 10) :: Nat.digitChar (n % 100 / 10) :: '.' ::
        (Nat.repr (n / 100)).data.reverse := by
  show ((Nat.repr (n / 100) ++ String.mk ('.' :: pad2Digits (n % 100))).data).reverse = _
  rw [String.data_append]
  simp [pad2Digits, List.reverse_append]

/-- The strip step applied to a two-decimal rendering removes `.00` exactly
when the hundredths count is a multiple of 100, and then leaves exactly the
decimal form of the integer part. -/
theorem stripDot00_fixed2 (n : ℕ) :
    stripDot00 (fixed2 n) =
      if n % 100 = 0 then Nat.repr (n / 100) else fixed2 n := by
  have hlt : n % 100 < 100 := Nat.mod_lt _ (by norm_num)
  unfold stripDot00
  rw [fixed2_data_reverse]
  simp only [List.take_succ_cons, List.take_zero, List.drop_succ_cons, List.drop_zero]
  by_cases hc : n % 100 = 0
  · have hcond : Nat.digitChar (n % 100 % 10) :: Nat.digitChar (n % 100 / 10) ::
        '.' :: ([] : List Char) = ['0', '0', '.'] := by rw [hc]; rfl
    rw [if_pos hcond, if_pos hc, List.reverse_reverse]
  · have hcond : ¬(Nat.digitChar (n % 100 % 10) :: Nat.digitChar (n % 100 / 10) ::
        '.' :: ([] : List Char) = ['0', '0', '.']) := by
      intro heq
      injection heq with h1 heq2
      injection heq2 with h2 heq3
      rw [digitChar_eq_zero_iff (by omega)] at h1
      rw [digitChar_eq_zero_iff (by omega)] at h2
      omega
    rw [if_neg hcond, if_neg hc]

/-- Reverse of the character data of a sign-prefixed two-decimal rendering:
the two decimal digits, the point, then the reversed integer digits and the
minus sign. -/
theorem neg_fixed2_data_reverse (n : ℕ) :
    ("-" ++ fixed2 n).data.reverse =
      Nat.digitChar (n % 100 % 10) :: Nat.digitChar (n % 100 / 10) :: '.' ::
        ((Nat.repr (n / 100)).data.reverse ++ ['-']) := by
  rw [String.data_append, show ("-" : String).data = ['-'] from rfl,
    List.singleton_append, List.reverse_cons, fixed2_data_reverse]
  simp [List.cons_append]

/-- The strip step on a sign-prefixed two-decimal rendering: `.00` is
removed exactly when the hundredths count is a multiple of 100, leaving the
sign and the integer part. -/
theorem stripDot00_neg_fixed2 (n : ℕ) :
    stripDot00 ("-" ++ fixed2 n) =
      if n % 100 = 0 then "-" ++ Nat.repr (n / 100) else "-" ++ fixed2 n := by
  have hlt : n % 100 < 100 := Nat.mod_lt _ (by norm_num)
  unfold stripDot00
  rw [neg_fixed2_data_reverse]
  simp only [List.take_succ_cons, List.take_zero, List.drop_succ_cons, List.drop_zero]
  by_cases hc : n % 100 = 0
  · have hcond : Nat.digitChar (n % 100 % 10) :: Nat.digitChar (n % 100 / 10) ::
        '.' :: ([] : List Char) = ['0', '0', '.'] := by rw [hc]; rfl
    rw [if_pos hcond, if_pos hc]
    simp only [List.reverse_append, List.reverse_reverse, List.reverse_cons,
      List.reverse_nil, List.nil_append, List.singleton_append]
    rfl
  · have hcond : ¬(Nat.digitChar (n % 100 % 10) :: Nat.digitChar (n % 100 / 10) ::
        '.' :: ([] : List Char) = ['0', '0', '.']) := by
      intro heq
      injection heq with h1 heq2
      injection heq2 with h2 heq3
      rw [digitChar_eq_zero_iff (by omega)] at h1
      rw [digitChar_eq_zero_iff (by omega)] at h2
      omega
    rw [if_neg hcond, if_neg hc]

/-- Below `10 ^ 21`, `toFixed(2)` of a nonnegative input renders the
rounded hundredths. -/
theorem toFixed2_nonneg {q : ℚ} (h : 0 ≤ q) (hsmall : q < 10 ^ 21) :
    toFixed2 q = fixed2 (hundredths q) := by
  rw [toFixed2, if_neg (not_lt.mpr h), toFixed2Abs, if_neg (not_le.mpr hsmall)]

/-- Below `10 ^ 21` in magnitude, `toFixed(2)` of a negative input is the
sign followed by the rounded hundredths of the absolute value. -/
theorem toFixed2_neg {q : ℚ} (h : q < 0) (hsmall : -q < 10 ^ 21) :
    toFixed2 q = "-" ++ fixed2 (hundredths (-q)) := by
  rw [toFixed2, if_pos h, toFixed2Abs, if_neg (not_le.mpr hsmall)]

/-- From `10 ^ 21` upward, `toFixed(2)` falls back to the plain `ToString`
rendering of the absolute value, behind the sign. -/
theorem toFixed2_large {q : ℚ} (h : 0 ≤ q) (hbig : 10 ^ 21 ≤ q) :
    toFixed2 q = jsNumToStringNN q := by
  rw [toFixed2, if_neg (not_lt.mpr h), toFixed2Abs, if_pos hbig]

theorem toFixed2_large_neg {q : ℚ} (h : q < 0) (hbig : 10 ^ 21 ≤ -q) :
    toFixed2 q = "-" ++ jsNumToStringNN (-q) := by
  rw [toFixed2, if_pos h, toFixed2Abs, if_pos hbig]

/-! ### Line splitting: `indentString` -/

theorem splitLines_ne_nil (cs : List Char) : splitLines cs ≠ [] := by
  induction cs with
  | nil => simp [splitLines]
  | cons c rest ih =>
    rw [splitLines]
    split
    · simp
    · split <;> simp

theorem newline_not_mem_splitLines {cs : List Char} {l : List Char}
    (hmem : l ∈ splitLines cs) : '\n' ∉ l := by
  induction cs generalizing l with
  | nil =>
    simp only [splitLines, List.mem_singleton] at hmem
    subst hmem; simp
  | cons c rest ih =>
    rw [splitLines] at hmem
    by_cases hc : c = '\n'
    · rw [if_pos hc] at hmem
      rcases List.mem_cons.mp hmem with rfl | h2
      · simp
      · exact ih h2
    · rw [if_neg hc] at hmem
      cases h : splitLines rest with
      | nil => exact absurd h (splitLines_ne_nil rest)
      | cons l0 ls =>
        rw [h] at hmem
        rcases List.mem_cons.mp hmem with rfl | h2
        · intro hin
          rcases List.mem_cons.mp hin with heq | hin2
          · exact hc heq.symm
          · exact ih (h ▸ List.mem_cons_self l0 ls) hin2
        · exact ih (h ▸ List.mem_cons_of_mem l0 h2)

theorem joinLines_cons_of_ne_nil {L : List (List Char)} (h : L ≠ []) (l : List Char) :
    joinLines (l :: L) = l ++ '\n' :: joinLines L := by
  cases L with
  | nil => exact absurd rfl h
  | cons x xs => rfl

theorem joinLines_cons_cons (c : Char) (l0 : List Char) (ls : List (List Char)) :
    joinLines ((c :: l0) :: ls) = c :: joinLines (l0 :: ls) := by
  cases ls <;> rfl

theorem joinLines_splitLines (cs : List Char) : joinLines (splitLines cs) = cs := by
  induction cs with
  | nil => rfl
  | cons c rest ih =>
    rw [splitLines]
    by_cases hc : c = '\n'
    · rw [if_pos hc, joinLines_cons_of_ne_nil (splitLines_ne_nil rest), ih, hc]
      simp
    · rw [if_neg hc]
      cases h : splitLines rest with
      | nil => exact absurd h (splitLines_ne_nil rest)
      | cons l0 ls =>
        rw [joinLines_cons_cons]
        rw [h] at ih
        rw [ih]

theorem splitLines_of_no_newline {l : List Char} (h : '\n' ∉ l) :
    splitLines l = [l] := by
  induction l with
  | nil => rfl
  | cons c t ih =>
    have hc : ¬(c = '\n') := fun heq => h (heq ▸ List.mem_cons_self c t)
    have ht := ih fun hin => h (List.mem_cons_of_mem c hin)
    rw [splitLines, if_neg hc, ht]

theorem splitLines_append_newline {l : List Char} (R : List Char) (h : '\n' ∉ l) :
    splitLines (l ++ '\n' :: R) = l :: splitLines R := by
  induction l with
  | nil => rw [List.nil_append, splitLines, if_pos rfl]
  | cons c t ih =>
    have hc : ¬(c = '\n') := fun heq => h (heq ▸ List.mem_cons_self c t)
    have ht := ih fun hin => h (List.mem_cons_of_mem c hin)
    rw [List.cons_append, splitLines, if_neg hc, ht]

theorem splitLines_joinLines {ls : List (List Char)} (hne : ls ≠ [])
    (hnl : ∀ l ∈ ls, '\n' ∉ l) : splitLines (joinLines ls) = ls := by
  induction ls with
  | nil => exact absurd rfl hne
  | cons l rest ih =>
    cases rest with
    | nil =>
      show splitLines (joinLines [l]) = [l]
      exact splitLines_of_no_newline (hnl l (List.mem_cons_self l []))
    | cons l2 ls2 =>
      rw [joinLines_cons_of_ne_nil (by simp) l,
        splitLines_append_newline _ (hnl l (List.mem_cons_self _ _)),
        ih (by simp) fun x hx => hnl x (List.mem_cons_of_mem l hx)]

/-- Whether an `Option`al paint list is present with a solid first entry —
the exact condition under which the colour extractors build an rgba
string. -/
def headSolid : Option (List Paint) → Bool
  | some (Paint.solid _ _ :: _) => true
  | _ => false

/-- The spec's reading of the extractors — the first *solid* entry anywhere
in the list.  Stated only to compare against the source behaviour. -/
def firstSolidPaint (ps : List Paint) : Option Paint :=
  ps.find? fun p => match p with | .solid _ _ => true | .nonSolid _ => false

/-- A node with its own `opacity` attribute replaced. -/
def setNodeOpacity : SceneNode → Option ℚ → SceneNode
  | .mk p c, o => .mk { p with opacity := o } c

/-- Neutral node attributes used to build the concrete sample nodes below. -/
def baseProps : NodeProps where
  ntype := "RECTANGLE"
  name := ""
  visible := true
  x := 0
  y := 0
  width := 0
  height := 0
  opacity := none
  fills := none
  strokes := none
  strokeWeight := .absent
  cornerRadius := .absent
  effects := none
  paddingTop := none
  paddingRight := none
  paddingBottom := none
  paddingLeft := none
  layoutMode := "NONE"
  primaryAxisAlignItems := "MIN"
  counterAxisAlignItems := "MIN"
  characters := ""
  fontName := .absent
  fontSize := .absent
  lineHeight := .absent
  letterSpacing := .absent
  textAlignHorizontal := none

/-- An rgba string never equals `"transparent"` (they differ at the first
character already). -/
theorem rgbaFromRGB_ne_transparent (color : RGB) (opacity : ℚ) :
    rgbaFromRGB color opacity ≠ "transparent" := by
  intro h
  have hd := congrArg String.data h
  rw [rgbaFromRGB] at hd
  simp only [String.data_append, List.cons_append, List.append_assoc] at hd
  injection hd with h1 hrest
  exact absurd h1 (by decide)

/-! ### Claim C1 -/

/-- C1 (amended): for every finite number of magnitude below `10 ^ 21` —
the entire range where `toFixed` uses fixed notation — `sliceNum` renders the
sign, then the absolute value rounded to two decimal places (ties toward the
larger candidate, as `toFixed` prescribes), and drops the decimal point
together with the two decimal digits exactly when both rounded decimal
digits are zero; in particular `sliceNum 12 = "12"`, but
`sliceNum 12.5 = "12.50"` and `sliceNum (-12.5) = "-12.50"` — the
`.replace(/\.00$/, "")` step removes only a literal `".00"` tail, so a
single trailing zero survives.  From `10 ^ 21` upward `toFixed` falls back
to the plain `ToString` rendering (for example `sliceNum 10^21 = "1e+21"`,
which carries no `".00"` tail to strip).  The result is a pure function of
the input, hence deterministic and locale-independent. -/
theorem sliceNum_rounds_and_strips_double_zero :
    (∀ q : ℚ, 0 ≤ q → q < 10 ^ 21 →
      sliceNum q =
        if hundredths q % 100 = 0 then Nat.repr (hundredths q / 100)
        else fixed2 (hundredths q))
    ∧ (∀ q : ℚ, q < 0 → -q < 10 ^ 21 →
      sliceNum q =
        if hundredths (-q) % 100 = 0 then "-" ++ Nat.repr (hundredths (-q) / 100)
        else "-" ++ fixed2 (hundredths (-q)))
    ∧ (∀ q : ℚ, 0 ≤ q → 10 ^ 21 ≤ q →
      toFixed2 q = jsNumToStringNN q ∧ sliceNum q = stripDot00 (jsNumToStringNN q))
    ∧ (∀ q : ℚ, q < 0 → 10 ^ 21 ≤ -q →
      toFixed2 q = "-" ++ jsNumToStringNN (-q))
    ∧ sliceNum 12 = "12" ∧ sliceNum (12.5 : ℚ) = "12.50"
    ∧ sliceNum (-12.5 : ℚ) = "-12.50" ∧ sliceNum ((10 : ℚ) ^ 21) = "1e+21" := by
  have hgen : ∀ q : ℚ, 0 ≤ q → q < 10 ^ 21 →
      sliceNum q =
        if hundredths q % 100 = 0 then Nat.repr (hundredths q / 100)
        else fixed2 (hundredths q) := by
    intro q h hsmall
    rw [sliceNum, toFixed2_nonneg h hsmall, stripDot00_fixed2]
  have hneg : ∀ q : ℚ, q < 0 → -q < 10 ^ 21 →
      sliceNum q =
        if hundredths (-q) % 100 = 0 then "-" ++ Nat.repr (hundredths (-q) / 100)
        else "-" ++ fixed2 (hundredths (-q)) := by
    intro q h hsmall
    rw [sliceNum, toFixed2_neg h hsmall, stripDot00_neg_fixed2]
  refine ⟨hgen, hneg, ?_, ?_, ?_, ?_, ?_, ?_⟩
  · intro q h hbig
    exact ⟨toFixed2_large h hbig, by rw [sliceNum, toFixed2_large h hbig]⟩
  · intro q h hbig
    exact toFixed2_large_neg h hbig
  · rw [hgen 12 (by norm_num) (by norm_num),
      show hundredths (12 : ℚ) = 1200 by norm_num [hundredths]; decide]
    decide
  · rw [hgen (12.5 : ℚ) (by norm_num) (by norm_num),
      show hundredths (12.5 : ℚ) = 1250 by norm_num [hundredths]; decide]
    decide
  · rw [hneg (-12.5 : ℚ) (by norm_num) (by norm_num),
      show hundredths (-(-12.5 : ℚ)) = 1250 by norm_num [hundredths]; decide]
    decide
  · rw [sliceNum, toFixed2_large (by positivity) le_rfl, jsNumToStringNN,
      if_pos (by norm_num),
      show ((⌊(10 : ℚ) ^ 21⌋).toNat) = 10 ^ 21 by norm_num; decide]
    decide

/-- C1 counterexample: the claim asserts `format(12.5) = "12.5"`, but the
code renders `12.5` as `"12.50"` — the replace step removes only a literal
`".00"` suffix, never a single trailing zero. -/
theorem sliceNum_half_keeps_trailing_zero :
    sliceNum (12.5 : ℚ) = "12.50" ∧ ("12.50" : String) ≠ "12.5" := by
  constructor
  · rw [sliceNum, toFixed2_nonneg (by norm_num : (0 : ℚ) ≤ 12.5) (by norm_num),
      show hundredths (12.5 : ℚ) = 1250 by norm_num [hundredths]; decide, stripDot00_fixed2]
    decide
  · decide

/-- Witness for C1: the amended statement applied at the concrete inputs
`12.3` and `-12.3`. -/
theorem sliceNum_rounds_and_strips_double_zero_witness :
    ((0 : ℚ) ≤ 12.3 ∧ (12.3 : ℚ) < 10 ^ 21 ∧ sliceNum (12.3 : ℚ) = "12.30")
    ∧ ((-12.3 : ℚ) < 0 ∧ -(-12.3 : ℚ) < 10 ^ 21 ∧ sliceNum (-12.3 : ℚ) = "-12.30") := by
  refine ⟨⟨by norm_num, by norm_num, ?_⟩, ⟨by norm_num, by norm_num, ?_⟩⟩
  · rw [sliceNum_rounds_and_strips_double_zero.1 (12.3 : ℚ) (by norm_num) (by norm_num),
      show hundredths (12.3 : ℚ) = 1230 by norm_num [hundredths]; decide]
    decide
  · rw [sliceNum_rounds_and_strips_double_zero.2.1 (-12.3 : ℚ) (by norm_num) (by norm_num),
      show hundredths (-(-12.3 : ℚ)) = 1230 by norm_num [hundredths]; decide]
    decide

/-! ### Claim C8 -/

/-- C8 (confirmed): for every string and indent width, `indentString`
prefixes each non-blank line (one containing at least one non-whitespace
character) with exactly that many spaces and leaves blank lines unchanged;
in particular the 3-line block `"a\n\nb"` with blank middle line indented
by 2 becomes `"  a\n\n  b"` — only the first and last lines gain exactly
two spaces. -/
theorem indentString_prefixes_nonblank_lines :
    (∀ (s : String) (k : ℕ),
      splitLines (indentString s k).data =
        (splitLines s.data).map fun l =>
          if lineIsBlank l then l else List.replicate k ' ' ++ l)
    ∧ indentString "a\n\nb" 2 = "  a\n\n  b" := by
  constructor
  · intro s k
    show splitLines (joinLines _) = _
    refine splitLines_joinLines ?_ ?_
    · intro hmap
      exact splitLines_ne_nil s.data (List.map_eq_nil_iff.mp hmap)
    · intro l' hl'
      obtain ⟨l, hl, rfl⟩ := List.mem_map.mp hl'
      by_cases hb : lineIsBlank l
      · rw [if_pos hb]
        exact newline_not_mem_splitLines hl
      · rw [if_neg hb]
        intro hin
        rcases List.mem_append.mp hin with h1 | h2
        · exact absurd (List.eq_of_mem_replicate h1) (by decide)
        · exact newline_not_mem_splitLines hl h2
  · decide

/-! ### Claim C2 -/

/-- C2 (amended): each colour extractor returns the rgba rendering of the
*first entry* of the relevant paint list when that entry is solid — with the
entry's opacity, which `|| 1` defaults to 1 when absent *or zero* — and
returns `"transparent"` exactly when the list is absent, empty, or has a
non-solid first entry.  A solid entry behind a non-solid first entry is
never consulted. -/
theorem color_extractors_head_entry :
    ∀ n : SceneNode,
      (∀ (col : RGB) (o : Option ℚ) (rest : List Paint),
        n.fills = some (Paint.solid col o :: rest) →
          getBackgroundColor n = rgbaFromRGB col (jsOrNum o 1))
      ∧ (getBackgroundColor n = "transparent" ↔ headSolid n.fills = false)
      ∧ (∀ (col : RGB) (o : Option ℚ) (rest : List Paint),
        n.strokes = some (Paint.solid col o :: rest) →
          getBorderColor n = rgbaFromRGB col (jsOrNum o 1))
      ∧ (getBorderColor n = "transparent" ↔ headSolid n.strokes = false) := by
  intro n
  refine ⟨?_, ?_, ?_, ?_⟩
  · intro col o rest h
    rw [getBackgroundColor, h]
  · cases hf : n.fills with
    | none => simp [getBackgroundColor, headSolid, hf]
    | some ps =>
      cases ps with
      | nil => simp [getBackgroundColor, headSolid, hf]
      | cons p rest =>
        cases p with
        | solid col o =>
          simp [getBackgroundColor, headSolid, hf,
            rgbaFromRGB_ne_transparent col (jsOrNum o 1)]
        | nonSolid t => simp [getBackgroundColor, headSolid, hf]
  · intro col o rest h
    rw [getBorderColor, h]
  · cases hf : n.strokes with
    | none => simp [getBorderColor, headSolid, hf]
    | some ps =>
      cases ps with
      | nil => simp [getBorderColor, headSolid, hf]
      | cons p rest =>
        cases p with
        | solid col o =>
          simp [getBorderColor, headSolid, hf,
            rgbaFromRGB_ne_transparent col (jsOrNum o 1)]
        | nonSolid t => simp [getBorderColor, headSolid, hf]

/-- A node whose fill and stroke lists start with a gradient entry, followed
by a solid red entry. -/
def gradientFirstNode : SceneNode :=
  .mk { baseProps with
    fills := some [Paint.nonSolid "GRADIENT_LINEAR", Paint.solid ⟨1, 0, 0⟩ none],
    strokes := some [Paint.nonSolid "GRADIENT_LINEAR", Paint.solid ⟨1, 0, 0⟩ none] } []

/-- C2 counterexample: the fill list of `gradientFirstNode` *does* contain a
solid entry (its second), yet `getBackgroundColor` returns `"transparent"`
instead of that entry's rgba rendering, and likewise `getBorderColor` — the
extractors inspect only the first entry, not the first solid entry. -/
theorem color_extractors_skip_no_entries :
    firstSolidPaint [Paint.nonSolid "GRADIENT_LINEAR", Paint.solid ⟨1, 0, 0⟩ none]
        = some (Paint.solid ⟨1, 0, 0⟩ none)
    ∧ getBackgroundColor gradientFirstNode = "transparent"
    ∧ getBorderColor gradientFirstNode = "transparent"
    ∧ rgbaFromRGB ⟨1, 0, 0⟩ (jsOrNum none 1) ≠ "transparent" := by
  exact ⟨rfl, rfl, rfl, rgbaFromRGB_ne_transparent _ _⟩

/-- A node with a solid blue first fill (opacity one half) and a solid green
first stroke (no opacity given). -/
def solidFillNode : SceneNode :=
  .mk { baseProps with
    fills := some [Paint.solid ⟨0, 0, 1⟩ (some (1/2))],
    strokes := some [Paint.solid ⟨0, 1, 0⟩ none] } []

/-- Witness for C2: the amended statement applied at `solidFillNode`. -/
theorem color_extractors_head_entry_witness :
    solidFillNode.fills = some (Paint.solid ⟨0, 0, 1⟩ (some (1/2)) :: [])
    ∧ getBackgroundColor solidFillNode = rgbaFromRGB ⟨0, 0, 1⟩ (jsOrNum (some (1/2)) 1)
    ∧ solidFillNode.strokes = some (Paint.solid ⟨0, 1, 0⟩ none :: [])
    ∧ getBorderColor solidFillNode = rgbaFromRGB ⟨0, 1, 0⟩ (jsOrNum none 1) := by
  refine ⟨rfl, ?_, rfl, ?_⟩
  · exact (color_extractors_head_entry solidFillNode).1 _ _ _ rfl
  · exact (color_extractors_head_entry solidFillNode).2.2.1 _ _ _ rfl

/-! ### Claim C10 -/

/-- C10 (confirmed): a node opacity of exactly 0 is indistinguishable from
an absent opacity in the rectangle/ellipse and text renderers (`opacity || 1`
treats 0 as falsy), so the rendered line reports `opacity at 100%`; and a
first solid fill or stroke entry whose own opacity is exactly 0 is rendered
with rgba alpha 1. -/
theorem opacity_zero_treated_as_absent :
    ∀ (n : SceneNode) (col : RGB) (rest : List Paint),
      (n.opacity = some 0 →
        generateContainerPrompt n = generateContainerPrompt (setNodeOpacity n none)
        ∧ generateTextPrompt n = generateTextPrompt (setNodeOpacity n none)
        ∧ (nearestOpacity (jsOrNum n.opacity 1)).repr = "100")
      ∧ (n.fills = some (Paint.solid col (some 0) :: rest) →
          getBackgroundColor n = rgbaFromRGB col 1)
      ∧ (n.strokes = some (Paint.solid col (some 0) :: rest) →
          getBorderColor n = rgbaFromRGB col 1) := by
  intro n col rest
  refine ⟨fun h => ⟨?_, ?_, ?_⟩, fun h => ?_, fun h => ?_⟩
  · obtain ⟨p, c⟩ := n
    simp only [SceneNode.opacity, SceneNode.props] at h
    simp [generateContainerPrompt, setNodeOpacity, componentName, getBackgroundColor,
      getBorderWidth, getBorderColor, getBorderRadius, getShadow, SceneNode.ntype,
      SceneNode.name, SceneNode.width, SceneNode.height, SceneNode.x, SceneNode.y,
      SceneNode.opacity, SceneNode.fills, SceneNode.strokes, SceneNode.strokeWeight,
      SceneNode.cornerRadius, SceneNode.effects, SceneNode.props, h, jsOrNum]
  · obtain ⟨p, c⟩ := n
    simp only [SceneNode.opacity, SceneNode.props] at h
    simp [generateTextPrompt, setNodeOpacity, componentName, getBackgroundColor,
      replaceNewlines, SceneNode.ntype, SceneNode.name, SceneNode.characters,
      SceneNode.fontName, SceneNode.fontSize, SceneNode.lineHeight,
      SceneNode.letterSpacing, SceneNode.textAlignHorizontal, SceneNode.opacity,
      SceneNode.fills, SceneNode.props, h, jsOrNum]
  · rw [h]
    rw [show jsOrNum (some 0) 1 = 1 by simp [jsOrNum]]
    rw [show nearestOpacity 1 = 100 by norm_num [nearestOpacity, jsRound]]
    decide
  · rw [getBackgroundColor, h]
    simp [jsOrNum]
  · rw [getBorderColor, h]
    simp [jsOrNum]

/-- A rectangle node with opacity 0 and zero-opacity solid first paints. -/
def zeroOpacityNode : SceneNode :=
  .mk { baseProps with
    opacity := some 0,
    fills := some [Paint.solid ⟨1, 0, 0⟩ (some 0)],
    strokes := some [Paint.solid ⟨0, 1, 0⟩ (some 0)] } []

/-- Witness for C10: the statement applied at `zeroOpacityNode`. -/
theorem opacity_zero_treated_as_absent_witness :
    zeroOpacityNode.opacity = some 0
    ∧ (nearestOpacity (jsOrNum zeroOpacityNode.opacity 1)).repr = "100"
    ∧ getBackgroundColor zeroOpacityNode = rgbaFromRGB ⟨1, 0, 0⟩ 1
    ∧ getBorderColor zeroOpacityNode = rgbaFromRGB ⟨0, 1, 0⟩ 1 := by
  refine ⟨rfl, ?_, ?_, ?_⟩
  · exact ((opacity_zero_treated_as_absent zeroOpacityNode ⟨1, 0, 0⟩ []).1 rfl).2.2
  · exact (opacity_zero_treated_as_absent zeroOpacityNode ⟨1, 0, 0⟩ []).2.1 rfl
  · exact (opacity_zero_treated_as_absent zeroOpacityNode ⟨0, 1, 0⟩ []).2.2 rfl

/-! ### Claims C7 and C9 -/

theorem sliceNum_zero : sliceNum 0 = "0" := by
  rw [sliceNum, toFixed2_nonneg le_rfl (by norm_num),
    show hundredths 0 = 0 by norm_num [hundredths], stripDot00_fixed2]
  decide

theorem nearestOpacity_one : nearestOpacity 1 = 100 := by
  norm_num [nearestOpacity, jsRound]

/-- C7 (confirmed): for a frame-family node whose layout mode is `NONE`,
the rendered line carries exactly the literal `"Layout mode: NONE"` as its
layout information; for any other layout mode it carries the mode name, the
two axis alignments and the padding string. -/
theorem framePrompt_layout_mode_literal :
    ∀ n : SceneNode,
      (n.layoutMode = "NONE" →
        generateFramePrompt n =
          "- A " ++ toLowerStr n.ntype ++ " frame" ++ componentName n ++ " with " ++
            Nat.repr n.children.length ++ " children, dimensions " ++
            sliceNum n.width ++ "x" ++ sliceNum n.height ++ "px, positioned at (" ++
            sliceNum n.x ++ "," ++ sliceNum n.y ++ ")px, " ++ "Layout mode: NONE" ++
            ":\n" ++
            indentString (joinStrings "\n" (n.children.map fun c => WidgetGenerator [c])))
      ∧ (n.layoutMode ≠ "NONE" →
        generateFramePrompt n =
          "- A " ++ toLowerStr n.ntype ++ " frame" ++ componentName n ++ " with " ++
            Nat.repr n.children.length ++ " children, dimensions " ++
            sliceNum n.width ++ "x" ++ sliceNum n.height ++ "px, positioned at (" ++
            sliceNum n.x ++ "," ++ sliceNum n.y ++ ")px, " ++
            ("Layout mode: " ++ n.layoutMode ++ ", Alignment: " ++
              n.primaryAxisAlignItems ++ "/" ++ n.counterAxisAlignItems ++
              ", Padding: " ++ getPadding n) ++ ":\n" ++
            indentString (joinStrings "\n" (n.children.map fun c => WidgetGenerator [c]))) := by
  intro n
  constructor
  · intro h
    rw [generateFramePrompt_eq, if_neg (not_not_intro h)]
  · intro h
    rw [generateFramePrompt_eq, if_pos h]

/-- A childless frame with layout mode `NONE`. -/
def frameNoneNode : SceneNode := .mk { baseProps with ntype := "FRAME" } []

/-- A childless frame with horizontal auto-layout and zero padding. -/
def frameAutoNode : SceneNode :=
  .mk { baseProps with
    ntype := "FRAME", layoutMode := "HORIZONTAL",
    primaryAxisAlignItems := "CENTER", counterAxisAlignItems := "MAX",
    paddingTop := some 0, paddingRight := some 0, paddingBottom := some 0,
    paddingLeft := some 0 } []

/-- Witness for C7: both branches at concrete frames; the `NONE` branch is
evaluated to its literal output. -/
theorem framePrompt_layout_mode_literal_witness :
    frameNoneNode.layoutMode = "NONE"
    ∧ generateFramePrompt frameNoneNode =
        "- A frame frame with 0 children, dimensions 0x0px, positioned at (0,0)px, Layout mode: NONE:\n"
    ∧ frameAutoNode.layoutMode ≠ "NONE"
    ∧ generateFramePrompt frameAutoNode =
        "- A frame frame with 0 children, dimensions 0x0px, positioned at (0,0)px, Layout mode: HORIZONTAL, Alignment: CENTER/MAX, Padding: 0px 0px 0px 0px:\n" := by
  refine ⟨rfl, ?_, by decide, ?_⟩
  · rw [(framePrompt_layout_mode_literal frameNoneNode).1 rfl,
      show frameNoneNode.width = 0 from rfl, show frameNoneNode.height = 0 from rfl,
      show frameNoneNode.x = 0 from rfl, show frameNoneNode.y = 0 from rfl]
    simp only [sliceNum_zero]
    decide
  · rw [(framePrompt_layout_mode_literal frameAutoNode).2 (by decide),
      show frameAutoNode.width = 0 from rfl, show frameAutoNode.height = 0 from rfl,
      show frameAutoNode.x = 0 from rfl, show frameAutoNode.y = 0 from rfl,
      show getPadding frameAutoNode =
          sliceNum 0 ++ "px " ++ sliceNum 0 ++ "px " ++ sliceNum 0 ++ "px " ++
            sliceNum 0 ++ "px" from rfl]
    simp only [sliceNum_zero]
    decide

/-- A node with its `characters` attribute replaced. -/
def setNodeCharacters : SceneNode → String → SceneNode
  | .mk p c, s => .mk { p with characters := s } c

theorem newline_not_mem_replaceNewlines (s : String) :
    '\n' ∉ (replaceNewlines s).data := by
  intro hin
  have h2 : '\n' ∈ s.data.flatMap fun c => if c = '\n' then ['\\', 'n'] else [c] := hin
  rcases List.mem_flatMap.mp h2 with ⟨c, _, hmem⟩
  by_cases hc : c = '\n'
  · rw [if_pos hc] at hmem
    rcases List.mem_cons.mp hmem with h | h
    · exact absurd h (by decide)
    · rcases List.mem_cons.mp h with h | h
      · exact absurd h (by decide)
      · cases h
  · rw [if_neg hc] at hmem
    rcases List.mem_cons.mp hmem with h | h
    · exact hc h.symm
    · cases h

theorem flatMap_of_no_newline {l : List Char} (h : '\n' ∉ l) :
    (l.flatMap fun c => if c = '\n' then ['\\', 'n'] else [c]) = l := by
  induction l with
  | nil => rfl
  | cons c t ih =>
    have hc : ¬(c = '\n') := fun heq => h (heq ▸ List.mem_cons_self c t)
    have ht := ih fun hin => h (List.mem_cons_of_mem c hin)
    rw [List.flatMap_cons, if_neg hc, ht]
    rfl

theorem replaceNewlines_idem (s : String) :
    replaceNewlines (replaceNewlines s) = replaceNewlines s := by
  rw [replaceNewlines, replaceNewlines]
  exact congrArg String.mk (flatMap_of_no_newline (newline_not_mem_replaceNewlines s))

/-- A text node whose content is `a`, a real newline, `b`. -/
def newlineTextNode : SceneNode :=
  .mk { baseProps with ntype := "TEXT", characters := "a\nb" } []

/-- C9 (confirmed): the text renderer replaces every newline of the
content by the two-character sequence backslash–`n`: the escaped content
contains no newline, `"a\nb"` becomes `"a\\nb"`, a text node renders
exactly as if its content already were the escaped string, and the node
with content `"a\nb"` renders the literal shown. -/
theorem textPrompt_escapes_newlines :
    (∀ s : String, '\n' ∉ (replaceNewlines s).data)
    ∧ replaceNewlines "a\nb" = "a\\nb"
    ∧ (∀ n : SceneNode,
        generateTextPrompt n =
          generateTextPrompt (setNodeCharacters n (replaceNewlines n.characters)))
    ∧ (∀ n : SceneNode, n.characters = "a\nb" →
        generateTextPrompt n = generateTextPrompt (setNodeCharacters n "a\\nb")) := by
  have hc : ∀ n : SceneNode,
      generateTextPrompt n =
        generateTextPrompt (setNodeCharacters n (replaceNewlines n.characters)) := by
    intro n
    obtain ⟨p, c⟩ := n
    simp [generateTextPrompt, setNodeCharacters, componentName, getBackgroundColor,
      SceneNode.ntype, SceneNode.name, SceneNode.characters, SceneNode.fontName,
      SceneNode.fontSize, SceneNode.lineHeight, SceneNode.letterSpacing,
      SceneNode.textAlignHorizontal, SceneNode.opacity, SceneNode.fills,
      SceneNode.props, replaceNewlines_idem]
  refine ⟨newline_not_mem_replaceNewlines, by decide, hc, ?_⟩
  intro n h
  have h2 := hc n
  rw [h] at h2
  rw [h2, show replaceNewlines "a\nb" = "a\\nb" by decide]

set_option maxRecDepth 4000 in
/-- Witness for C9: the escaping conjunct applied at `newlineTextNode`,
with the render evaluated to its literal output line. -/
theorem textPrompt_escapes_newlines_witness :
    newlineTextNode.characters = "a\nb"
    ∧ generateTextPrompt newlineTextNode =
        "- Text node with content: \"a\\nb\", font size 0px, font family Unknown, font style Unknown, alignment LEFT, color transparent, opacity at 100%, line height auto, and letter spacing normal." := by
  refine ⟨rfl, ?_⟩
  rw [textPrompt_escapes_newlines.2.2.2 newlineTextNode rfl]
  simp only [generateTextPrompt, setNodeCharacters, newlineTextNode, baseProps,
    SceneNode.ntype, SceneNode.name, SceneNode.characters, SceneNode.fontName,
    SceneNode.fontSize, SceneNode.lineHeight, SceneNode.letterSpacing,
    SceneNode.textAlignHorizontal, SceneNode.opacity, SceneNode.fills,
    SceneNode.props, componentName, getBackgroundColor, jsOrStr, jsOrNum,
    replaceNewlines]
  rw [nearestOpacity_one]
  simp only [sliceNum_zero]
  decide

/-! ### Claim C3: invisible nodes prune their whole subtree -/

mutual

/-- Replace the children of every *invisible* node of the tree by `[]` and
recurse through visible nodes.  Rendering is invariant under this map, which
is exactly the claim that an invisible node's entire subtree contributes
nothing to the output (note it keeps the nodes themselves, so the child
*counts* printed by container lines are untouched). -/
def clearNode : SceneNode → SceneNode
  | .mk p c => .mk p (if p.visible then clearList c else [])

def clearList : List SceneNode → List SceneNode
  | [] => []
  | n :: rest => clearNode n :: clearList rest

end

theorem clearList_eq_map (l : List SceneNode) : clearList l = l.map clearNode := by
  induction l with
  | nil => rfl
  | cons n rest ih => rw [clearList, ih, List.map_cons]

theorem clearNode_ntype (n : SceneNode) : (clearNode n).ntype = n.ntype := by
  cases n; rfl

theorem clearNode_visible (n : SceneNode) : (clearNode n).visible = n.visible := by
  cases n; rfl

theorem clearNode_width (n : SceneNode) : (clearNode n).width = n.width := by
  cases n; rfl

theorem clearNode_height (n : SceneNode) : (clearNode n).height = n.height := by
  cases n; rfl

theorem clearNode_x (n : SceneNode) : (clearNode n).x = n.x := by
  cases n; rfl

theorem clearNode_y (n : SceneNode) : (clearNode n).y = n.y := by
  cases n; rfl

theorem clearNode_layoutMode (n : SceneNode) : (clearNode n).layoutMode = n.layoutMode := by
  cases n; rfl

theorem clearNode_primaryAxisAlignItems (n : SceneNode) :
    (clearNode n).primaryAxisAlignItems = n.primaryAxisAlignItems := by
  cases n; rfl

theorem clearNode_counterAxisAlignItems (n : SceneNode) :
    (clearNode n).counterAxisAlignItems = n.counterAxisAlignItems := by
  cases n; rfl

theorem componentName_clearNode (n : SceneNode) :
    componentName (clearNode n) = componentName n := by
  cases n; rfl

theorem getPadding_clearNode (n : SceneNode) : getPadding (clearNode n) = getPadding n := by
  cases n; rfl

theorem generateContainerPrompt_clearNode (n : SceneNode) :
    generateContainerPrompt (clearNode n) = generateContainerPrompt n := by
  cases n; rfl

theorem generateTextPrompt_clearNode (n : SceneNode) :
    generateTextPrompt (clearNode n) = generateTextPrompt n := by
  cases n; rfl

theorem generateLinePrompt_clearNode (n : SceneNode) :
    generateLinePrompt (clearNode n) = generateLinePrompt n := by
  cases n; rfl

theorem generateVectorPrompt_clearNode (n : SceneNode) :
    generateVectorPrompt (clearNode n) = generateVectorPrompt n := by
  cases n; rfl

theorem clearNode_children_of_visible {n : SceneNode} (h : n.visible = true) :
    (clearNode n).children = clearList n.children := by
  cases n with
  | mk p c =>
    simp only [SceneNode.visible, SceneNode.props] at h
    simp [clearNode, SceneNode.children, h]

theorem renderOne_clearNode_aux :
    ∀ k : ℕ, ∀ n : SceneNode, sizeOf n ≤ k → n.visible = true →
      renderOne (clearNode n) = renderOne n := by
  intro k
  induction k with
  | zero =>
    intro n hsz _
    exfalso
    cases n with
    | mk p c => simp [SceneNode.mk.sizeOf_spec] at hsz
  | succ k ih =>
    intro n hsz hvis
    have hna := clearNode_ntype n
    rw [renderOne, renderOne, hna]
    have hIH : ∀ c ∈ n.children, WidgetGenerator [clearNode c] = WidgetGenerator [c] := by
      intro c hc
      rw [WidgetGenerator_singleton, WidgetGenerator_singleton, clearNode_visible]
      cases hv : c.visible with
      | false => rfl
      | true =>
        have hlt : sizeOf c ≤ k := by
          have h2 := sizeOf_singleton_lt_parent hc
          simp only [List.cons.sizeOf_spec, List.nil.sizeOf_spec] at h2
          omega
        rw [ih c hlt hv]
    have hchild :
        joinStrings "\n" ((clearNode n).children.map fun c => WidgetGenerator [c]) =
          joinStrings "\n" (n.children.map fun c => WidgetGenerator [c]) := by
      rw [clearNode_children_of_visible hvis, clearList_eq_map, List.map_map]
      exact congrArg _ (List.map_congr_left fun c hc => hIH c hc)
    have hlen : (clearNode n).children.length = n.children.length := by
      rw [clearNode_children_of_visible hvis, clearList_eq_map, List.length_map]
    split_ifs
    · exact generateContainerPrompt_clearNode n
    · rw [generateGroupPrompt_eq, generateGroupPrompt_eq, hchild, hlen,
        componentName_clearNode, clearNode_width, clearNode_height, clearNode_x,
        clearNode_y]
    · rw [generateFramePrompt_eq, generateFramePrompt_eq, hchild, hlen,
        componentName_clearNode, clearNode_ntype, clearNode_width, clearNode_height,
        clearNode_x, clearNode_y, clearNode_layoutMode,
        clearNode_primaryAxisAlignItems, clearNode_counterAxisAlignItems,
        getPadding_clearNode]
    · exact generateTextPrompt_clearNode n
    · exact generateLinePrompt_clearNode n
    · exact generateVectorPrompt_clearNode n
    · rw [generateSectionPrompt_eq, generateSectionPrompt_eq, hchild, hlen,
        componentName_clearNode, clearNode_width, clearNode_height, clearNode_x,
        clearNode_y]
    · rfl

theorem renderOne_clearNode (n : SceneNode) (hv : n.visible = true) :
    renderOne (clearNode n) = renderOne n :=
  renderOne_clearNode_aux (sizeOf n) n le_rfl hv

/-- C3 (confirmed): the renderer renders only visible nodes — filtering the
input to its visible members changes nothing, a single invisible node
renders the empty string, and emptying the subtree below every invisible
node of the whole tree (`clearList`) leaves the output untouched at every
nesting depth, so an invisible node prunes its entire subtree from the
output. -/
theorem invisible_nodes_render_nothing :
    (∀ ns : List SceneNode,
      WidgetGenerator ns = WidgetGenerator (ns.filter fun m => m.visible))
    ∧ (∀ n : SceneNode, n.visible = false → WidgetGenerator [n] = "")
    ∧ (∀ ns : List SceneNode, WidgetGenerator (clearList ns) = WidgetGenerator ns) := by
  refine ⟨?_, ?_, ?_⟩
  · intro ns
    rw [WidgetGenerator_eq, WidgetGenerator_eq, List.filter_filter]
    simp
  · intro n h
    rw [WidgetGenerator_singleton, h]
    rfl
  · intro ns
    rw [WidgetGenerator_eq, WidgetGenerator_eq, clearList_eq_map, List.filter_map]
    have hcomp : ((fun m : SceneNode => m.visible) ∘ clearNode) =
        fun m : SceneNode => m.visible :=
      funext fun m => clearNode_visible m
    rw [hcomp, List.map_map]
    refine congrArg _ (List.map_congr_left fun c hc => ?_)
    have hv := List.of_mem_filter hc
    exact renderOne_clearNode c hv

/-- An invisible rectangle (with an invisible child of its own). -/
def invisibleRect : SceneNode :=
  .mk { baseProps with visible := false } [.mk { baseProps with visible := false } []]

/-- Witness for C3: the invisible-node conjunct applied at `invisibleRect`. -/
theorem invisible_nodes_render_nothing_witness :
    invisibleRect.visible = false ∧ WidgetGenerator [invisibleRect] = "" :=
  ⟨rfl, invisible_nodes_render_nothing.2.1 invisibleRect rfl⟩

/-! ### Claim C4: total child counts, and what an all-invisible child block is -/

theorem joinStrings_cons_of_ne_nil {l : List String} (h : l ≠ []) (sep s : String) :
    joinStrings sep (s :: l) = s ++ sep ++ joinStrings sep l := by
  cases l with
  | nil => exact absurd rfl h
  | cons x xs => rfl

theorem joinStrings_replicate_empty :
    ∀ k : ℕ, joinStrings "\n" (List.replicate k "") =
      String.mk (List.replicate (k - 1) '\n') := by
  intro k
  induction k with
  | zero => rfl
  | succ k ih =>
    cases k with
    | zero => rfl
    | succ m =>
      show joinStrings "\n" ("" :: List.replicate (m + 1) "") = _
      rw [joinStrings_cons_of_ne_nil (by simp), ih, String.empty_append]
      rfl

theorem splitLines_replicate_newline (m : ℕ) :
    splitLines (List.replicate m '\n') = List.replicate (m + 1) [] := by
  induction m with
  | zero => rfl
  | succ m ih =>
    show splitLines ('\n' :: List.replicate m '\n') = _
    rw [splitLines, if_pos rfl, ih]
    rfl

theorem joinLines_replicate_nil (m : ℕ) :
    joinLines (List.replicate (m + 1) []) = List.replicate m '\n' := by
  induction m with
  | zero => rfl
  | succ m ih =>
    show joinLines ([] :: List.replicate (m + 1) []) = _
    rw [joinLines_cons_of_ne_nil (by simp), ih]
    rfl

theorem indentString_newlines_only (m : ℕ) :
    indentString (String.mk (List.replicate m '\n')) 2 =
      String.mk (List.replicate m '\n') := by
  rw [indentString]
  show String.mk (joinLines ((splitLines (List.replicate m '\n')).map _)) = _
  rw [splitLines_replicate_newline, List.map_replicate]
  rw [show (if lineIsBlank [] then ([] : List Char) else List.replicate 2 ' ' ++ []) = []
    from rfl]
  rw [joinLines_replicate_nil]

/-- C4 (amended): every container line reports the *total* number of
children `node.children.length` (invisible ones included); when all
children are invisible each child contributes the empty string, so the
indented block after the container's own line is exactly the
`count − 1` newline separators joining those empty strings (empty for at
most one child, but a nonempty all-blank string for two or more). -/
theorem containers_report_total_child_count :
    ∀ n : SceneNode, (∀ c ∈ n.children, c.visible = false) →
      indentString (joinStrings "\n" (n.children.map fun c => WidgetGenerator [c])) 2 =
          String.mk (List.replicate (n.children.length - 1) '\n')
      ∧ generateGroupPrompt n =
          "- A group" ++ componentName n ++ " with " ++ Nat.repr n.children.length ++
            " children, dimensions " ++ sliceNum n.width ++ "x" ++ sliceNum n.height ++
            "px, positioned at (" ++ sliceNum n.x ++ "," ++ sliceNum n.y ++
            ")px, with properties:\n" ++
            String.mk (List.replicate (n.children.length - 1) '\n')
      ∧ generateSectionPrompt n =
          "- A section node" ++ componentName n ++ " with " ++
            Nat.repr n.children.length ++ " children, dimensions " ++
            sliceNum n.width ++ "x" ++ sliceNum n.height ++ "px, positioned at (" ++
            sliceNum n.x ++ "," ++ sliceNum n.y ++ ")px:\n" ++
            String.mk (List.replicate (n.children.length - 1) '\n')
      ∧ generateFramePrompt n =
          "- A " ++ toLowerStr n.ntype ++ " frame" ++ componentName n ++ " with " ++
            Nat.repr n.children.length ++ " children, dimensions " ++
            sliceNum n.width ++ "x" ++ sliceNum n.height ++ "px, positioned at (" ++
            sliceNum n.x ++ "," ++ sliceNum n.y ++ ")px, " ++
            (if n.layoutMode ≠ "NONE" then
              "Layout mode: " ++ n.layoutMode ++ ", Alignment: " ++
                n.primaryAxisAlignItems ++ "/" ++ n.counterAxisAlignItems ++
                ", Padding: " ++ getPadding n
            else "Layout mode: NONE") ++ ":\n" ++
            String.mk (List.replicate (n.children.length - 1) '\n') := by
  intro n hall
  have hmap : (n.children.map fun c => WidgetGenerator [c]) =
      List.replicate n.children.length "" := by
    rw [List.map_congr_left (g := fun _ => "") fun c hc => by
      rw [WidgetGenerator_singleton, hall c hc]; rfl]
    exact List.map_const' _ ""
  have hblock :
      indentString (joinStrings "\n" (n.children.map fun c => WidgetGenerator [c])) 2 =
        String.mk (List.replicate (n.children.length - 1) '\n') := by
    rw [hmap, joinStrings_replicate_empty, indentString_newlines_only]
  refine ⟨hblock, ?_, ?_, ?_⟩
  · rw [generateGroupPrompt_eq, hblock]
  · rw [generateSectionPrompt_eq, hblock]
  · rw [generateFramePrompt_eq, hblock]

/-- An invisible childless rectangle. -/
def hiddenRect : SceneNode := .mk { baseProps with visible := false } []

/-- A visible group with two invisible children. -/
def twoHiddenGroup : SceneNode :=
  .mk { baseProps with ntype := "GROUP" } [hiddenRect, hiddenRect]

/-- C4 counterexample: in a group with *two* invisible children the block
rendered after the group's own line is the single newline separator
`"\n"`, which is not the empty string — the claim's "empty child block"
fails for two or more invisible children. -/
theorem group_child_block_not_empty :
    (twoHiddenGroup.children.map fun c => c.visible) = [false, false]
    ∧ indentString
        (joinStrings "\n" (twoHiddenGroup.children.map fun c => WidgetGenerator [c])) 2 =
        "\n"
    ∧ ("\n" : String) ≠ "" := by
  have h0 : WidgetGenerator [hiddenRect] = "" := by
    rw [WidgetGenerator_singleton]; rfl
  refine ⟨rfl, ?_, by decide⟩
  have h1 : (twoHiddenGroup.children.map fun c => WidgetGenerator [c]) = ["", ""] := by
    show List.map _ [hiddenRect, hiddenRect] = _
    rw [List.map_cons, List.map_cons, List.map_nil, h0]
  rw [h1]
  decide

/-- A visible group with one invisible child. -/
def oneHiddenGroup : SceneNode :=
  .mk { baseProps with ntype := "GROUP" } [hiddenRect]

/-- Witness for C4: the amended statement applied at `oneHiddenGroup`,
evaluated to its literal output (block empty for a single child). -/
theorem containers_report_total_child_count_witness :
    (oneHiddenGroup.children.map fun c => c.visible) = [false]
    ∧ generateGroupPrompt oneHiddenGroup =
        "- A group with 1 children, dimensions 0x0px, positioned at (0,0)px, with properties:\n" := by
  refine ⟨rfl, ?_⟩
  rw [(containers_report_total_child_count oneHiddenGroup (by
      intro c hc
      have : c = hiddenRect := by
        rcases List.mem_cons.mp hc with rfl | h
        · rfl
        · cases h
      rw [this]; rfl)).2.1,
    show oneHiddenGroup.width = 0 from rfl, show oneHiddenGroup.height = 0 from rfl,
    show oneHiddenGroup.x = 0 from rfl, show oneHiddenGroup.y = 0 from rfl]
  simp only [sliceNum_zero]
  decide

/-! ### Claim C5: unsupported node kinds -/

theorem joinStrings_cons_cons (sep s x : String) (xs : List String) :
    joinStrings sep (s :: x :: xs) = s ++ sep ++ joinStrings sep (x :: xs) := rfl

theorem joinStrings_append_middle (A B : List String) (u : String) :
    joinStrings "\n" (A ++ u :: B) =
      joinStrings "\n" A ++ (if A.isEmpty then "" else "\n") ++ u ++
        (if B.isEmpty then "" else "\n") ++ joinStrings "\n" B := by
  induction A with
  | nil =>
    cases B with
    | nil => simp [joinStrings, String.empty_append, String.append_empty]
    | cons b bs =>
      rw [List.nil_append, joinStrings_cons_of_ne_nil (by simp)]
      simp [joinStrings, String.empty_append, String.append_empty, String.append_assoc]
  | cons a A2 ih =>
    rw [List.cons_append, joinStrings_cons_of_ne_nil (by simp) "\n" a, ih]
    cases A2 with
    | nil =>
      simp [joinStrings, String.empty_append, String.append_empty, String.append_assoc]
    | cons c cs =>
      rw [joinStrings_cons_cons "\n" a c cs]
      simp [String.append_assoc]

theorem convertIntoNodes_eq_filter (ns : List SceneNode) (p : Option SceneNode) :
    convertIntoNodes ns p = ns.filter fun n => isSupportedType n.ntype := by
  induction ns with
  | nil => rfl
  | cons n rest ih =>
    show ((n :: rest).map fun node =>
      if isSupportedType node.ntype then some node else none).reduceOption = _
    rw [List.map_cons]
    by_cases hs : isSupportedType n.ntype
    · rw [if_pos hs, List.reduceOption_cons_of_some]
      rw [show ((rest.map fun node =>
          if isSupportedType node.ntype then some node else none).reduceOption) =
          convertIntoNodes rest p from rfl, ih, List.filter_cons, if_pos (by simp [hs])]
    · rw [if_neg hs, List.reduceOption_cons_of_none]
      rw [show ((rest.map fun node =>
          if isSupportedType node.ntype then some node else none).reduceOption) =
          convertIntoNodes rest p from rfl, ih, List.filter_cons, if_neg (by simp [hs])]

/-- C5 (confirmed): a visible node of an unsupported kind contributes
exactly the single line `Unknown node type: <kind>` to the renderer's
output, leaving the renderings of the siblings on either side unchanged;
and `convertIntoNodes` removes every unsupported-kind node from a
selection, so a top-level unsupported node never reaches the renderer. -/
theorem unknown_kind_line :
    ∀ (n : SceneNode) (xs ys : List SceneNode),
      isSupportedType n.ntype = false →
      (n.visible = true →
        WidgetGenerator (xs ++ n :: ys) =
          WidgetGenerator xs ++
            (if (xs.filter fun m => m.visible).isEmpty then "" else "\n") ++
            ("Unknown node type: " ++ n.ntype) ++
            (if (ys.filter fun m => m.visible).isEmpty then "" else "\n") ++
            WidgetGenerator ys)
      ∧ convertIntoNodes (xs ++ n :: ys) none =
          convertIntoNodes xs none ++ convertIntoNodes ys none := by
  intro n xs ys hunsup
  constructor
  · intro hvis
    have hfil : (n :: ys).filter (fun m => m.visible) =
        n :: ys.filter fun m => m.visible := by
      rw [List.filter_cons, if_pos (by simp [hvis])]
    have hiso : ∀ l : List SceneNode, (l.map renderOne).isEmpty = l.isEmpty := by
      intro l; cases l <;> rfl
    simp only [WidgetGenerator_eq]
    rw [List.filter_append, hfil, List.map_append, List.map_cons,
      renderOne_unknown hunsup, joinStrings_append_middle, hiso, hiso]
  · rw [convertIntoNodes_eq_filter, convertIntoNodes_eq_filter,
      convertIntoNodes_eq_filter, List.filter_append, List.filter_cons,
      if_neg (by simp [hunsup])]

/-- A visible node of the unsupported kind `STICKY`. -/
def stickyNode : SceneNode := .mk { baseProps with ntype := "STICKY" } []

/-- Witness for C5: the statement applied at `stickyNode` with no siblings,
evaluated to the literal unknown-kind line and to the empty converted
selection. -/
theorem unknown_kind_line_witness :
    isSupportedType stickyNode.ntype = false
    ∧ stickyNode.visible = true
    ∧ WidgetGenerator [stickyNode] = "Unknown node type: STICKY"
    ∧ convertIntoNodes [stickyNode] none = [] := by
  have h := unknown_kind_line stickyNode [] [] (by decide)
  have h1 := h.1 rfl
  rw [List.nil_append, WidgetGenerator_nil,
    show stickyNode.ntype = "STICKY" from rfl] at h1
  have h2 := h.2
  rw [List.nil_append] at h2
  refine ⟨by decide, rfl, ?_, ?_⟩
  · rw [h1]; decide
  · rw [h2]; rfl

/-! ### Claim C6: the no-selection notice -/

set_option maxRecDepth 8000 in
theorem generateOutput_ne_notice (msg : UIMessage) (cs : List SceneNode) :
    generateOutput msg cs ≠ "No nodes selected." := by
  intro h
  have hd := congrArg String.data h
  rw [generateOutput, outputHeader] at hd
  simp only [String.data_append, List.cons_append, List.append_assoc] at hd
  injection hd with h1 _
  exact absurd h1 (by decide)

/-- C6 (confirmed): on a `'generate'` message the handler posts the fixed
literal `"No nodes selected."` in place of the generated prompt exactly when
the selection is absent or empty; for every non-empty selection — including
one consisting only of unsupported-kind nodes — it posts the full prompt
built by `generateOutput`, which contains the `### Layout:` section and is
never the notice string. -/
theorem no_selection_notice :
    ∀ (msg : UIMessage) (sel : Option (List SceneNode)),
      msg.mtype = "generate" →
      ((sel = none ∨ sel = some []) → onMessage msg sel = some "No nodes selected.")
      ∧ (∀ ns : List SceneNode, sel = some ns → ns ≠ [] →
          onMessage msg sel = some (generateOutput msg (convertIntoNodes ns none))
          ∧ (∃ pre post : String,
              generateOutput msg (convertIntoNodes ns none) =
                pre ++ ("### Layout:\n" ++ post))
          ∧ generateOutput msg (convertIntoNodes ns none) ≠ "No nodes selected.") := by
  intro msg sel hm
  constructor
  · rintro (rfl | rfl)
    · rw [onMessage, if_pos hm]
    · rw [onMessage, if_pos hm]
      rfl
  · intro ns hsel hne
    subst hsel
    have hlen : ¬(ns.length = 0) := by
      simpa [List.length_eq_zero] using hne
    refine ⟨?_,
      ⟨outputHeader msg, outputFooter msg (convertIntoNodes ns none), rfl⟩,
      generateOutput_ne_notice msg _⟩
    rw [onMessage, if_pos hm]
    show (if ns.length = 0 then some "No nodes selected."
      else some (generateOutput msg (convertIntoNodes ns none))) = _
    rw [if_neg hlen]

/-- A `'generate'` message with the `'null'` database sentinel. -/
def genMsg : UIMessage :=
  { mtype := "generate", framework := "React", database := "null",
    description := "demo" }

/-- Witness for C6: the notice for an absent selection, and the full prompt
for a selection holding only the unsupported-kind node `stickyNode`. -/
theorem no_selection_notice_witness :
    genMsg.mtype = "generate"
    ∧ onMessage genMsg none = some "No nodes selected."
    ∧ onMessage genMsg (some [stickyNode]) =
        some (generateOutput genMsg (convertIntoNodes [stickyNode] none))
    ∧ generateOutput genMsg (convertIntoNodes [stickyNode] none) ≠
        "No nodes selected." := by
  refine ⟨rfl, ?_, ?_, ?_⟩
  · exact (no_selection_notice genMsg none rfl).1 (Or.inl rfl)
  · exact ((no_selection_notice genMsg (some [stickyNode]) rfl).2 [stickyNode] rfl
      (List.cons_ne_nil _ _)).1
  · exact ((no_selection_notice genMsg (some [stickyNode]) rfl).2 [stickyNode] rfl
      (List.cons_ne_nil _ _)).2.2

end PromptGen

